import Mathlib

/-!
Verification of the ccplot GUI wrapper scripts (`beta_v1.2.py`, `v2.py`,
`ccplot/bin/ccplot_gui.py`): a shallow embedding of the filename-timestamp
parser and of the open/plot/save user actions of the three variants,
together with theorems about the specified properties.

Instants are represented as a count of seconds since 0001-01-01 00:00:00
in the proleptic Gregorian calendar, matching Python `datetime` ordinal
arithmetic.  A Python exception escaping a function is represented by the
`Except.error` constructor carrying the exception class name.
-/

namespace CcplotGui

/-! ### Python `datetime` arithmetic (proleptic Gregorian, years 1..9999) -/

def isLeap (y : Nat) : Bool :=
  (y % 4 == 0 && y % 100 != 0) || y % 400 == 0

def daysInMonth (y m : Nat) : Nat :=
  if m = 2 then (if isLeap y then 29 else 28)
  else if m = 4 ∨ m = 6 ∨ m = 9 ∨ m = 11 then 30
  else 31

def daysBeforeMonth (y m : Nat) : Nat :=
  (List.range (m - 1)).foldl (fun a i => a + daysInMonth y (i + 1)) 0

/-- Days from 0001-01-01 to the given date (Python `date.toordinal() - 1`). -/
def ord0 (y m d : Nat) : Nat :=
  let q := y - 1
  365 * q + q / 4 + q / 400 - q / 100 + daysBeforeMonth y m + (d - 1)

/-- Seconds from 0001-01-01 00:00:00 to the given instant. -/
def dtSeconds (y m d hh mi ss : Nat) : Nat :=
  ord0 y m d * 86400 + hh * 3600 + mi * 60 + ss

/-- Seconds value of Python `datetime.max` (9999-12-31 23:59:59). -/
def maxSeconds : Nat := dtSeconds 9999 12 31 23 59 59

def dateValid (y m d : Nat) : Bool :=
  decide (1 ≤ y) && decide (y ≤ 9999) && decide (1 ≤ m) && decide (m ≤ 12) &&
    decide (1 ≤ d) && decide (d ≤ daysInMonth y m)

def timeValid (hh mi ss : Nat) : Bool :=
  decide (hh ≤ 23) && decide (mi ≤ 59) && decide (ss ≤ 59)

/-- `datetime(y, m, d, hh, mi, ss)`: `some` seconds value, or `none` for the
`ValueError` that Python raises on out-of-range fields. -/
def mkDatetime (y m d hh mi ss : Nat) : Option Nat :=
  if dateValid y m d && timeValid hh mi ss then some (dtSeconds y m d hh mi ss)
  else none

/-! ### The two filename regular expressions of `v2.py`

`re.match` semantics are embedded directly for the two fixed patterns:
`.` matches any character except a newline, `\d` a digit (Python also
accepts non-ASCII decimal digits; filenames here are ASCII so `Char.isDigit`
is used), and `$` matches at the end of the string or just before a final
newline.  A greedy `.*` hands the capture groups of the first pattern to the
rightmost position at which the rest of the pattern still matches. -/

def digitVal (c : Char) : Nat := c.toNat - 48

/-- Consume exactly `n` digit characters, returning their decimal value. -/
def takeDigitsAux : Nat → Nat → List Char → Option (Nat × List Char)
  | 0, acc, l => some (acc, l)
  | _ + 1, _, [] => none
  | n + 1, acc, c :: l =>
    if c.isDigit then takeDigitsAux n (acc * 10 + digitVal c) l else none

def takeDigits (n : Nat) (l : List Char) : Option (Nat × List Char) :=
  takeDigitsAux n 0 l

def expectChar (c : Char) : List Char → Option (List Char)
  | d :: l => if d = c then some l else none
  | [] => none

/-- The trailing `.*\.hdf$` of both patterns: some (possibly empty) run of
non-newline characters, then a literal `.hdf`, then the end of the string or
a single final newline. -/
def dotHdfTail : List Char → Bool
  | ['.', 'h', 'd', 'f'] => true
  | ['.', 'h', 'd', 'f', '\n'] => true
  | c :: l => c ≠ '\n' && dotHdfTail l
  | [] => false

/-- The capture-group core `(\d{4})-(\d{2})-(\d{2})T(\d{2})-(\d{2})-(\d{2})Z`
of the CALIPSO pattern. -/
def calCore (l : List Char) : Option ((Nat × Nat × Nat × Nat × Nat × Nat) × List Char) := do
  let (y, l) ← takeDigits 4 l
  let l ← expectChar '-' l
  let (m, l) ← takeDigits 2 l
  let l ← expectChar '-' l
  let (d, l) ← takeDigits 2 l
  let l ← expectChar 'T' l
  let (hh, l) ← takeDigits 2 l
  let l ← expectChar '-' l
  let (mi, l) ← takeDigits 2 l
  let l ← expectChar '-' l
  let (ss, l) ← takeDigits 2 l
  let l ← expectChar 'Z' l
  pure ((y, m, d, hh, mi, ss), l)

/-- Scan for the core after the greedy `.*`: rightmost viable position wins,
and `.*` cannot run past a newline. -/
def calFind : List Char → Option (Nat × Nat × Nat × Nat × Nat × Nat)
  | [] => none
  | c :: l =>
    match (if c ≠ '\n' then calFind l else none) with
    | some g => some g
    | none =>
      match calCore (c :: l) with
      | some (g, rest) => if dotHdfTail rest then some g else none
      | none => none

/-- `re.match` for `^CAL_LID_.*(\d{4})-(\d{2})-(\d{2})T(\d{2})-(\d{2})-(\d{2})Z.*\.hdf$`. -/
def calMatch : List Char → Option (Nat × Nat × Nat × Nat × Nat × Nat)
  | 'C' :: 'A' :: 'L' :: '_' :: 'L' :: 'I' :: 'D' :: '_' :: rest => calFind rest
  | _ => none

/-- The literal `CS_2B-` followed by `.*\.hdf$`. -/
def csHere : List Char → Bool
  | 'C' :: 'S' :: '_' :: '2' :: 'B' :: '-' :: rest => dotHdfTail rest
  | _ => false

/-- The trailing `.*CS_2B-.*\.hdf$` of the CloudSat pattern (no capture
groups, so only existence of a match matters). -/
def csTail : List Char → Bool
  | [] => false
  | c :: l => csHere (c :: l) || (c ≠ '\n' && csTail l)

/-- `re.match` for `^(\d{7})(\d{6})_.*CS_2B-.*\.hdf$`, with the two groups
already split as Python does: `int(yyddd[:4])`, `int(yyddd[4:])`,
`int(hhmmss[:2])`, `int(hhmmss[2:4])`, `int(hhmmss[4:6])`. -/
def csMatch (l : List Char) : Option (Nat × Nat × Nat × Nat × Nat) := do
  let (year, l) ← takeDigits 4 l
  let (doy, l) ← takeDigits 3 l
  let (hh, l) ← takeDigits 2 l
  let (mi, l) ← takeDigits 2 l
  let (ss, l) ← takeDigits 2 l
  let l ← expectChar '_' l
  if csTail l then some (year, doy, hh, mi, ss) else none

/-! ### `parse_filename_datetime` of `v2.py` -/

/-- `parse_filename_datetime(fname)`.  `Except.ok` is a normal return of the
Python pair `(start_dt, end_dt)`; `Except.error` is an escaping exception
(`ValueError` from an out-of-range `datetime` field or a year-zero
`datetime(year, 1, 1)`, `OverflowError` from a `datetime + timedelta`
result outside `datetime.min .. datetime.max`). -/
def parse_filename_datetime (fname : String) : Except String (Option Nat × Option Nat) :=
  match calMatch fname.data with
  | some (y, m, d, hh, mi, ss) =>
    match mkDatetime y m d hh mi ss with
    | none => .error "ValueError"
    | some t =>
      if t + 300 ≤ maxSeconds then .ok (some t, some (t + 300))
      else .error "OverflowError"
  | none =>
    match csMatch fname.data with
    | some (year, doy, hh, mi, ss) =>
      if year = 0 then .error "ValueError"
      else
        let total : Int := (dtSeconds year 1 1 0 0 0 : Int) + ((doy : Int) - 1) * 86400
          + (hh : Int) * 3600 + (mi : Int) * 60 + (ss : Int)
        if 0 ≤ total ∧ total ≤ (maxSeconds : Int) then
          if total.toNat + 120 ≤ maxSeconds then .ok (some total.toNat, some (total.toNat + 120))
          else .error "OverflowError"
        else .error "OverflowError"
    | none => .ok (none, none)

/-- The `timedelta` offset of the CloudSat branch added to
`datetime(year, 1, 1)`, in seconds (negative when the day-of-year group is
zero). -/
def csTotal (year doy hh mi ss : Nat) : Int :=
  (dtSeconds year 1 1 0 0 0 : Int) + ((doy : Int) - 1) * 86400
    + (hh : Int) * 3600 + (mi : Int) * 60 + (ss : Int)

/-- The CALIPSO pattern's digit groups form a valid in-range date/time:
`datetime(y, m, d, hh, mi, ss)` succeeds and adding 5 minutes stays within
`datetime.max`. -/
def calGroupsOk (y m d hh mi ss : Nat) : Bool :=
  dateValid y m d && timeValid hh mi ss &&
    decide (dtSeconds y m d hh mi ss + 300 ≤ maxSeconds)

/-- The CloudSat pattern's digit groups form a valid in-range date/time:
the year is non-zero, `datetime(year, 1, 1) + timedelta(...)` lands within
`datetime.min .. datetime.max`, and adding 2 minutes stays in range. -/
def csGroupsOk (year doy hh mi ss : Nat) : Bool :=
  decide (year ≠ 0) && decide (0 ≤ csTotal year doy hh mi ss) &&
    decide (csTotal year doy hh mi ss ≤ (maxSeconds : Int)) &&
    decide ((csTotal year doy hh mi ss).toNat + 120 ≤ maxSeconds)

/-! ### String formatting helpers used by the GUI actions -/

/-- Decimal digits of a natural number (fuel-indexed so that it reduces
definitionally). -/
def natCharsAux (fuel n : Nat) : List Char :=
  match fuel with
  | 0 => []
  | fuel + 1 =>
    if n < 10 then [Nat.digitChar n]
    else natCharsAux fuel (n / 10) ++ [Nat.digitChar (n % 10)]

/-- Decimal digits of a natural number, as Python `str(n)` prints them. -/
def natChars (n : Nat) : List Char := natCharsAux (n + 1) n

def natStr (n : Nat) : String := ⟨natChars n⟩

/-- Two-digit zero-padded field, as `strftime` `%H`/`%M`/`%S` and Qt `mm`/`ss`. -/
def pad2ch (n : Nat) : List Char := if n < 10 then ['0', Nat.digitChar n] else natChars n

/-- `strftime('%H:%M:%S')` of an instant given as seconds. -/
def hmsChars (t : Nat) : List Char :=
  pad2ch (t % 86400 / 3600) ++ ':' :: (pad2ch (t % 3600 / 60) ++ ':' :: pad2ch (t % 60))

/-- The `-x` argument `f"{start}..{end}"` built from two `strftime` strings. -/
def timeRangeArg (a b : Nat) : String := ⟨hmsChars a ++ '.' :: '.' :: hmsChars b⟩

/-- Qt `QTime.toString("H:mm:ss")` of a time of day given as seconds: the
hour field is *not* zero-padded. -/
def qtHChars (t : Nat) : List Char :=
  natChars (t / 3600) ++ ':' :: (pad2ch (t % 3600 / 60) ++ ':' :: pad2ch (t % 60))

/-- The `-x` argument of `v2.py`, built from two Qt `H:mm:ss` strings. -/
def qtTimeRangeArg (a b : Nat) : String := ⟨qtHChars a ++ '.' :: '.' :: qtHChars b⟩

/-- The `-y` argument `f"{low}..{high}"`. -/
def altRangeArg (lo hi : Nat) : String := ⟨natChars lo ++ '.' :: '.' :: natChars hi⟩

/-- A single-quote character (Python `repr` quoting). -/
def sq : String := "\x27"

def joinComma : List String → String
  | [] => ""
  | [s] => s
  | s :: l => s ++ ", " ++ joinComma l

/-- Python `str` of a list of strings, e.g. `['ccplot', '-o']`. -/
def pyStrList (l : List String) : String :=
  "[" ++ joinComma (l.map fun s => sq ++ s ++ sq) ++ "]"

/-- `str(subprocess.CalledProcessError(code, cmd))` for a non-zero exit
status: names the command and the status, but not the child's stderr. -/
def calledProcessErrorMsg (cmd : List String) (code : Nat) : String :=
  "Command " ++ sq ++ pyStrList cmd ++ sq ++ " returned non-zero exit status "
    ++ natStr code ++ "."

/-- Substring test (used to state that a shown text surfaces some string). -/
def listHasSub : List Char → List Char → Bool
  | [], sub => sub.isEmpty
  | c :: t, sub => sub.isPrefixOf (c :: t) || listHasSub t sub

def strContainsSub (s sub : String) : Bool := listHasSub s.data sub.data

/-- `posixpath.join` for the cases arising here. -/
def pathJoin (a b : String) : String :=
  if b.data.take 1 = ['/'] then b
  else if a.data.getLast? = some '/' ∨ a.data = [] then a ++ b
  else a ++ "/" ++ b

/-! ### Environment oracles

The subprocess, the HDF read and the file copy are external effects; their
behavior on one invocation is passed in as an explicit argument. -/

/-- Behavior of one `subprocess.run(cmd, ...)` call: either the child ran to
completion with an exit status and captured output streams, or the call
itself raised (e.g. `FileNotFoundError` when `ccplot` is not installed). -/
inductive RunResult where
  | completed (returncode : Nat) (stdout stderr : String)
  | raised (msg : String)

/-- Behavior of reading the time array out of the chosen HDF file. -/
inductive ReadResult where
  | ok (ts : List Nat)
  | raised (msg : String)

/-- Behavior of `shutil.copy`. -/
inductive CopyResult where
  | ok
  | raised (msg : String)

/-! ### Outcomes of the user actions -/

/-- Outcome of one invocation of `plot_data`.  `warned` means a guard
rejected the request before the subprocess; `ran` means `subprocess.run`
was reached and the action finished showing the given text; `ranUncaught`
means `subprocess.run` was reached but an exception escaped the handler;
`indexError` means an out-of-range `times[...]` access raised outside any
`try` block. -/
inductive PlotOutcome where
  | warned (msg : String)
  | indexError
  | ran (cmd : List String) (shown : String)
  | ranUncaught (cmd : List String) (msg : String)

def PlotOutcome.launched : PlotOutcome → Bool
  | .ran .. => true
  | .ranUncaught .. => true
  | _ => false

def PlotOutcome.isUncaught : PlotOutcome → Bool
  | .ranUncaught .. => true
  | .indexError => true
  | _ => false

def PlotOutcome.shownText : PlotOutcome → String
  | .warned m => m
  | .indexError => ""
  | .ran _ s => s
  | .ranUncaught _ m => m

/-- Outcome of one invocation of `open_file`. -/
inductive OpenOutcome where
  | cancelled
  | loaded (status : String)
  | readError (shown : String)

/-- Outcome of one invocation of `save_plot`. -/
inductive SaveOutcome where
  | noPlotWarned (msg : String)
  | cancelled
  | saved (shown : String)
  | copyCaught (shown : String)
  | uncaughtCopyError (msg : String)

def SaveOutcome.isUncaught : SaveOutcome → Bool
  | .uncaughtCopyError _ => true
  | _ => false

/-! ### `v2.py` (`MainWindow` of GUI Code v5) -/

/-- The widget state of `v2.py` relevant to the modelled actions.
`start_time`/`end_time` are the `QTimeEdit` values as seconds of day. -/
structure V2State where
  data_file : Option String
  start_dt : Option Nat
  end_dt : Option Nat
  current_plot_path : Option String
  start_time : Nat
  end_time : Nat
  alt_max : Nat

def v2CmapPath : String :=
  "/media/krishna/Linux/tools/ccplot-2.1.4/cmap/calipso-backscatter.cmap"

/-- The command list built by `v2.py`'s `plot_data`. -/
def v2_cmd (st : V2State) (f : String) : List String :=
  ["ccplot", "-o", "calipso_test1.png", "-c", v2CmapPath, "-a", "30",
   "-x", qtTimeRangeArg st.start_time st.end_time,
   "-y", altRangeArg 0 st.alt_max,
   "calipso532", f]

/-- `MainWindow.plot_data` of `v2.py`. -/
def v2_plot_data (st : V2State) (run : RunResult) : PlotOutcome × V2State :=
  match st.data_file with
  | none => (.warned "No file loaded. Open a file first.", st)
  | some f =>
    let st1 := { st with current_plot_path := some "calipso_test1.png" }
    let cmd := v2_cmd st f
    match run with
    | .raised m => (.ran cmd ("Exception: " ++ m), st1)
    | .completed code _ err =>
      if code ≠ 0 then (.ran cmd ("ccplot error:\n" ++ err), st1)
      else (.ran cmd "Plot generated successfully.", st1)

/-- `MainWindow.save_plot` of `v2.py`. -/
def v2_save_plot (st : V2State) (fname : Option String) (cp : CopyResult) : SaveOutcome :=
  match st.current_plot_path with
  | none => .noPlotWarned "No plot to save. Generate a plot first."
  | some _ =>
    match fname with
    | none => .cancelled
    | some out =>
      match cp with
      | .ok => .saved ("Plot saved to: " ++ out)
      | .raised m => .copyCaught ("Save error: " ++ m)

/-! ### `beta_v1.2.py` (`MainWindow` of ccplot GUI Beta v1.0) -/

/-- Widget state of `beta_v1.2.py`: slider positions are list indices into
`times`, altitude sliders carry meters. -/
structure BetaState where
  data_file : Option String
  times : List Nat
  start_slider : Nat
  end_slider : Nat
  alt_bottom : Nat
  alt_top : Nat
  cmap_selected : String

def betaCmapDir : String := "/media/krishna/Linux/tools/ccplot-2.1.4/cmap"

/-- `MainWindow.plot_data` of `beta_v1.2.py`.  The `times[...]` accesses sit
before the `try` block, so an out-of-range index escapes uncaught. -/
def beta_plot_data (st : BetaState) (run : RunResult) : PlotOutcome × BetaState :=
  if st.data_file.isNone || st.times.isEmpty then
    (.warned "Please load a file first.", st)
  else if st.start_slider ≥ st.end_slider then
    (.warned "End time must be after start time.", st)
  else
    match st.times.get? st.start_slider, st.times.get? st.end_slider with
    | some t1, some t2 =>
      let cmd := ["ccplot", "-o", "calipso_test1.png",
        "-c", pathJoin betaCmapDir st.cmap_selected, "-a", "30",
        "-x", timeRangeArg t1 t2,
        "-y", altRangeArg st.alt_bottom st.alt_top,
        "calipso532", st.data_file.getD ""]
      match run with
      | .raised m => (.ran cmd ("Plot failed:\n" ++ m), st)
      | .completed code _ _ =>
        if code ≠ 0 then
          (.ran cmd ("Plot failed:\n" ++ calledProcessErrorMsg cmd code), st)
        else (.ran cmd "Plot successful.", st)
    | _, _ => (.indexError, st)

/-- `MainWindow.open_file` of `beta_v1.2.py`.  The whole read sits in a
`try` block entered after `data_file` is set and `times` cleared; on a
successful read of an empty time array the `times[0]` label access raises
`IndexError`, also caught.  Slider values are clamped by Qt into the ranges
set from the profile count. -/
def beta_open_file (st : BetaState) (fname : Option String) (r : ReadResult) :
    OpenOutcome × BetaState :=
  match fname with
  | none => (.cancelled, st)
  | some f =>
    let st1 := { st with data_file := some f, times := [] }
    match r with
    | .raised m => (.readError ("Error opening file:\n" ++ m), st1)
    | .ok ts =>
      let st2 := { st1 with times := ts }
      match ts with
      | [] => (.readError ("Error opening file:\nlist index out of range"), st2)
      | _ =>
        (.loaded "File loaded successfully.",
          { st2 with start_slider := 0, end_slider := max (ts.length - 1) 1 })

/-- `MainWindow.save_plot` of `beta_v1.2.py`: no check that a plot exists
and no `try` around `shutil.copy`, so a copy failure escapes uncaught. -/
def beta_save_plot (fname : Option String) (cp : CopyResult) : SaveOutcome :=
  match fname with
  | none => .cancelled
  | some out =>
    match cp with
    | .ok => .saved ("Plot saved to: " ++ out)
    | .raised m => .uncaughtCopyError m

/-! ### `ccplot/bin/ccplot_gui.py` (`MainWindow` of ccplot GUI) -/

/-- Widget state of `ccplot_gui.py`: spin-box profile indices into `times`.
`current_plot_path` is initialised to `"ccplot_gui_plot.png"` and never
reassigned. -/
structure GuiState where
  data_file : Option String
  times : List Nat
  slider_start : Nat
  slider_end : Nat
  alt_max : Nat
  current_plot_path : String

/-- `MainWindow.plot_data` of `ccplot_gui.py`.  Only
`subprocess.CalledProcessError` is caught, so any other exception from
`subprocess.run` (e.g. `FileNotFoundError`) escapes uncaught, as does an
out-of-range `times[...]` access made before the `try`. -/
def gui_plot_data (st : GuiState) (run : RunResult) : PlotOutcome × GuiState :=
  if st.data_file.isNone || st.times.isEmpty then
    (.warned "Load an HDF file first.", st)
  else if st.slider_start ≥ st.slider_end then
    (.warned "End profile must be greater than start profile.", st)
  else
    match st.times.get? st.slider_start, st.times.get? st.slider_end with
    | some t1, some t2 =>
      let cmd := ["ccplot", "-o", st.current_plot_path,
        "-c", "calipso-backscatter.cmap", "-a", "30",
        "-x", timeRangeArg t1 t2,
        "-y", altRangeArg 0 st.alt_max,
        "calipso532", st.data_file.getD ""]
      match run with
      | .raised m => (.ranUncaught cmd m, st)
      | .completed code _ _ =>
        if code ≠ 0 then
          (.ran cmd ("Error running ccplot:\n" ++ calledProcessErrorMsg cmd code), st)
        else (.ran cmd "Plot generated successfully.", st)
    | _, _ => (.indexError, st)

/-- `MainWindow.open_file` of `ccplot_gui.py`.  The branch on the filename
(CALIPSO read, CloudSat read, or `ValueError("Unsupported file type")`) is
part of the read oracle.  The `slider_end` value is set to the last profile
and Qt clamps spin-box values into the freshly set ranges (the degenerate
single-profile range is approximated within `Nat`). -/
def gui_open_file (st : GuiState) (fname : Option String) (r : ReadResult) :
    OpenOutcome × GuiState :=
  match fname with
  | none => (.cancelled, st)
  | some f =>
    let st1 := { st with data_file := some f, times := [] }
    match r with
    | .raised m => (.readError ("Error reading HDF file:\n" ++ m), st1)
    | .ok ts =>
      let st2 := { st1 with times := ts }
      match ts with
      | [] => (.readError ("Error reading HDF file:\nlist index out of range"), st2)
      | _ =>
        (.loaded "File loaded successfully.",
          { st2 with slider_start := min st.slider_start (ts.length - 2),
                     slider_end := max (ts.length - 1) 1 })

/-- `MainWindow.save_plot` of `ccplot_gui.py`: the "no plot" guard only
fires on an empty path (`current_plot_path` is never falsy in practice),
and `shutil.copy` has no `try`, so a copy failure escapes uncaught. -/
def gui_save_plot (st : GuiState) (fname : Option String) (cp : CopyResult) : SaveOutcome :=
  if st.current_plot_path = "" then .noPlotWarned "Plot first before saving."
  else
    match fname with
    | none => .cancelled
    | some out =>
      match cp with
      | .ok => .saved ("Saved plot to " ++ out)
      | .raised m => .uncaughtCopyError m

/-! ### Predicates written from the specification text

These follow the wording of the spec (not the code) and are compared with
the commands the code builds. -/

def twoDigitsCh : List Char → Bool
  | [a, b] => a.isDigit && b.isDigit
  | _ => false

def charAt (l : List Char) (i : Nat) : Char := l.getD i ' '

/-- Spec wording: a time range formatted `HH:MM:SS..HH:MM:SS` — two-digit
hour, minute and second fields around colons, joined by two dots. -/
def spec_timeRangeFormat (s : String) : Bool :=
  let l := s.data
  l.length == 18 && twoDigitsCh (l.take 2) && charAt l 2 == ':' &&
    twoDigitsCh ((l.drop 3).take 2) && charAt l 5 == ':' &&
    twoDigitsCh ((l.drop 6).take 2) &&
    charAt l 8 == '.' && charAt l 9 == '.' &&
    twoDigitsCh ((l.drop 10).take 2) && charAt l 12 == ':' &&
    twoDigitsCh ((l.drop 13).take 2) && charAt l 15 == ':' &&
    twoDigitsCh ((l.drop 16).take 2)

/-- Digits consumed from the front of a character list. -/
def digitsSpan : List Char → List Char
  | c :: l => if c.isDigit then digitsSpan l else c :: l
  | [] => []

/-- Consume one or more leading digits. -/
def dropNumber : List Char → Option (List Char)
  | c :: l => if c.isDigit then some (digitsSpan l) else none
  | [] => none

/-- Spec wording: an altitude range formatted `low..high` — a number, two
dots, a number. -/
def spec_altRangeFormat (s : String) : Bool :=
  match dropNumber s.data with
  | some ('.' :: '.' :: r) =>
    match dropNumber r with
    | some [] => true
    | _ => false
  | _ => false

/-- Spec wording (claim C7): the ccplot command line is exactly an output
path after `-o`, a colormap file path after `-c`, an opacity after `-a`, a
`HH:MM:SS..HH:MM:SS` time range after `-x`, a `low..high` altitude range
after `-y`, then the product name and the input file path. -/
def spec_cmdFormat (cmd : List String) : Bool :=
  match cmd with
  | ["ccplot", "-o", _, "-c", _, "-a", _, "-x", x, "-y", y, _, _] =>
    spec_timeRangeFormat x && spec_altRangeFormat y
  | _ => false

/-- The command list of a launching outcome, if any. -/
def cmdOf : PlotOutcome → Option (List String)
  | .ran c _ => some c
  | .ranUncaught c _ => some c
  | _ => none

/-! ### Formatting lemmas -/

theorem digitChar_isDigit : ∀ m, m < 10 → (Nat.digitChar m).isDigit = true := by decide

theorem natCharsAux_digits :
    ∀ fuel n, n < fuel →
      natCharsAux fuel n ≠ [] ∧ (natCharsAux fuel n).all (·.isDigit) = true := by
  intro fuel
  induction fuel with
  | zero => intro n h; omega
  | succ f ih =>
    intro n h
    by_cases h10 : n < 10
    · simp [natCharsAux, h10, digitChar_isDigit n h10]
    · have hlt : n / 10 < n := Nat.div_lt_self (by omega) (by omega)
      have hrec := ih (n / 10) (by omega)
      simp only [natCharsAux, if_neg h10, List.all_append]
      refine ⟨by simp, ?_⟩
      simp [hrec.2, digitChar_isDigit (n % 10) (Nat.mod_lt n (by omega))]

theorem natChars_digits (n : Nat) :
    natChars n ≠ [] ∧ (natChars n).all (·.isDigit) = true :=
  natCharsAux_digits (n + 1) n (Nat.lt_succ_self n)

theorem natCharsAux_small (fuel m : Nat) (hf : 0 < fuel) (hm : m < 10) :
    natCharsAux fuel m = [Nat.digitChar m] := by
  cases fuel with
  | zero => omega
  | succ f => simp [natCharsAux, hm]

theorem natChars_two (n : Nat) (h1 : 10 ≤ n) (h2 : n < 100) :
    natChars n = [Nat.digitChar (n / 10), Nat.digitChar (n % 10)] := by
  unfold natChars
  simp only [natCharsAux, if_neg (by omega : ¬ n < 10)]
  rw [natCharsAux_small n (n / 10) (by omega) (by omega)]
  rfl

theorem pad2ch_shape (n : Nat) (h : n < 100) :
    ∃ a b, pad2ch n = [a, b] ∧ a.isDigit = true ∧ b.isDigit = true := by
  by_cases h10 : n < 10
  · exact ⟨'0', Nat.digitChar n, by simp [pad2ch, h10], by decide,
      digitChar_isDigit n h10⟩
  · refine ⟨Nat.digitChar (n / 10), Nat.digitChar (n % 10), ?_, ?_, ?_⟩
    · simp [pad2ch, h10, natChars_two n (by omega) h]
    · exact digitChar_isDigit _ (by omega)
    · exact digitChar_isDigit _ (Nat.mod_lt n (by omega))

theorem spec_timeRangeFormat_timeRangeArg (a b : Nat) :
    spec_timeRangeFormat (timeRangeArg a b) = true := by
  have hh1 : a % 86400 / 3600 < 100 := by
    have := Nat.mod_lt a (show 0 < 86400 by norm_num)
    omega
  have hm1 : a % 3600 / 60 < 100 := by
    have := Nat.mod_lt a (show 0 < 3600 by norm_num)
    omega
  have hs1 : a % 60 < 100 := by
    have := Nat.mod_lt a (show 0 < 60 by norm_num)
    omega
  have hh2 : b % 86400 / 3600 < 100 := by
    have := Nat.mod_lt b (show 0 < 86400 by norm_num)
    omega
  have hm2 : b % 3600 / 60 < 100 := by
    have := Nat.mod_lt b (show 0 < 3600 by norm_num)
    omega
  have hs2 : b % 60 < 100 := by
    have := Nat.mod_lt b (show 0 < 60 by norm_num)
    omega
  obtain ⟨a1, a2, e1, d1, d2⟩ := pad2ch_shape _ hh1
  obtain ⟨b1, b2, e2, d3, d4⟩ := pad2ch_shape _ hm1
  obtain ⟨c1, c2, e3, d5, d6⟩ := pad2ch_shape _ hs1
  obtain ⟨f1, f2, e4, d7, d8⟩ := pad2ch_shape _ hh2
  obtain ⟨g1, g2, e5, d9, d10⟩ := pad2ch_shape _ hm2
  obtain ⟨k1, k2, e6, d11, d12⟩ := pad2ch_shape _ hs2
  simp [spec_timeRangeFormat, timeRangeArg, hmsChars, e1, e2, e3, e4, e5, e6,
    twoDigitsCh, charAt, d1, d2, d3, d4, d5, d6, d7, d8, d9, d10, d11, d12]

theorem digitsSpan_append (l r : List Char) (h : l.all (·.isDigit) = true) :
    digitsSpan (l ++ r) = digitsSpan r := by
  induction l with
  | nil => simp
  | cons c t ih =>
    simp only [List.all_cons, Bool.and_eq_true] at h
    simp [digitsSpan, h.1, ih h.2]

theorem digitsSpan_all (l : List Char) (h : l.all (·.isDigit) = true) :
    digitsSpan l = [] := by
  have := digitsSpan_append l [] h
  simpa [digitsSpan] using this

theorem dropNumber_natChars (n : Nat) (r : List Char) :
    dropNumber (natChars n ++ r) = some (digitsSpan r) := by
  obtain ⟨hne, hall⟩ := natChars_digits n
  match hl : natChars n with
  | [] => exact absurd hl hne
  | c :: t =>
    rw [hl] at hall
    simp only [List.all_cons, Bool.and_eq_true] at hall
    simp [dropNumber, hall.1, digitsSpan_append t r hall.2]

theorem spec_altRangeFormat_altRangeArg (lo hi : Nat) :
    spec_altRangeFormat (altRangeArg lo hi) = true := by
  have h1 : dropNumber (natChars lo ++ '.' :: '.' :: natChars hi) =
      some (digitsSpan ('.' :: '.' :: natChars hi)) := dropNumber_natChars lo _
  have h2 : digitsSpan ('.' :: '.' :: natChars hi) = '.' :: '.' :: natChars hi := by
    simp [digitsSpan]
  have h3 : dropNumber (natChars hi) = some [] := by
    have := dropNumber_natChars hi []
    simpa [digitsSpan] using this
  simp [spec_altRangeFormat, altRangeArg, h1, h2, h3]

theorem spec_cmdFormat_explicit (o c a p f x y : String)
    (hx : spec_timeRangeFormat x = true) (hy : spec_altRangeFormat y = true) :
    spec_cmdFormat ["ccplot", "-o", o, "-c", c, "-a", a, "-x", x, "-y", y, p, f] = true := by
  simp [spec_cmdFormat, hx, hy]

theorem listHasSub_suffix (l s : List Char) : listHasSub (l ++ s) s = true := by
  induction l with
  | nil =>
    cases s with
    | nil => rfl
    | cons c t => simp [listHasSub, List.isPrefixOf_iff_prefix]
  | cons c t ih => simp [listHasSub, ih]

theorem strContainsSub_append (p s : String) : strContainsSub (p ++ s) s = true := by
  unfold strContainsSub
  rw [String.data_append]
  exact listHasSub_suffix p.data s.data

/-! ### Concrete fixture states used by counterexamples and witnesses -/

/-- `v2.py` state: no file loaded yet. -/
def v2StateNoFile : V2State :=
  { data_file := none, start_dt := none, end_dt := none, current_plot_path := none,
    start_time := 0, end_time := 0, alt_max := 30000 }

/-- `v2.py` state: a file is loaded and both time edits sit at 03:42:18. -/
def v2StateEq : V2State :=
  { data_file := some "granule.hdf", start_dt := none, end_dt := none,
    current_plot_path := none, start_time := 13338, end_time := 13338, alt_max := 30000 }

/-- `v2.py` state: a file is loaded, start 03:42:18, end 03:47:18. -/
def v2StateLt : V2State :=
  { data_file := some "granule.hdf", start_dt := none, end_dt := none,
    current_plot_path := none, start_time := 13338, end_time := 13638, alt_max := 30000 }

/-- `beta_v1.2.py` state: a two-profile file, sliders at 0 and 1. -/
def betaStateA : BetaState :=
  { data_file := some "granule.hdf", times := [13338, 13638], start_slider := 0,
    end_slider := 1, alt_bottom := 0, alt_top := 30000,
    cmap_selected := "calipso-backscatter.cmap" }

/-- `beta_v1.2.py` state: both sliders at the same index. -/
def betaStateEq : BetaState :=
  { betaStateA with start_slider := 1, end_slider := 1 }

/-- `beta_v1.2.py` state: nothing loaded. -/
def betaStateEmpty : BetaState :=
  { data_file := none, times := [], start_slider := 0, end_slider := 1,
    alt_bottom := 0, alt_top := 30000, cmap_selected := "calipso-backscatter.cmap" }

/-- `ccplot_gui.py` state: a two-profile file, spin boxes at 0 and 1. -/
def guiStateA : GuiState :=
  { data_file := some "granule.hdf", times := [13338, 13638], slider_start := 0,
    slider_end := 1, alt_max := 30000, current_plot_path := "ccplot_gui_plot.png" }

/-- `ccplot_gui.py` state: nothing loaded. -/
def guiStateEmpty : GuiState :=
  { data_file := none, times := [], slider_start := 0, slider_end := 1,
    alt_max := 30000, current_plot_path := "ccplot_gui_plot.png" }

/-! ### Claim C1 -/

/-- C1 counterexample: the claim says `parse_filename_datetime` raises no
exception for any string, but on a filename matching the CALIPSO pattern
with month field 13 the `datetime` constructor raises `ValueError`, which
escapes the function. -/
theorem C1_counterexample :
    parse_filename_datetime "CAL_LID_2007-13-12T03-42-18ZN.hdf" = .error "ValueError" := rfl

/-- C1 (amended), as a complete characterization of every input: when
neither pattern matches, `parse_filename_datetime` returns the absent pair
`(None, None)` without raising; when a pattern matches and its digit groups
form a valid in-range date/time, the function terminates normally with the
corresponding pair of timestamps; when a pattern matches but its digit
groups do not form a valid in-range date/time, an exception escapes. -/
theorem C1_amended_ok (fname : String) :
    (calMatch fname.data = none → csMatch fname.data = none →
      parse_filename_datetime fname = .ok (none, none)) ∧
    (∀ y m d hh mi ss, calMatch fname.data = some (y, m, d, hh, mi, ss) →
      calGroupsOk y m d hh mi ss = true →
      parse_filename_datetime fname =
        .ok (some (dtSeconds y m d hh mi ss), some (dtSeconds y m d hh mi ss + 300))) ∧
    (∀ y m d hh mi ss, calMatch fname.data = some (y, m, d, hh, mi, ss) →
      calGroupsOk y m d hh mi ss = false →
      ∃ e, parse_filename_datetime fname = .error e) ∧
    (∀ year doy hh mi ss, calMatch fname.data = none →
      csMatch fname.data = some (year, doy, hh, mi, ss) →
      csGroupsOk year doy hh mi ss = true →
      parse_filename_datetime fname =
        .ok (some (csTotal year doy hh mi ss).toNat,
             some ((csTotal year doy hh mi ss).toNat + 120))) ∧
    (∀ year doy hh mi ss, calMatch fname.data = none →
      csMatch fname.data = some (year, doy, hh, mi, ss) →
      csGroupsOk year doy hh mi ss = false →
      ∃ e, parse_filename_datetime fname = .error e) := by
  refine ⟨?_, ?_, ?_, ?_, ?_⟩
  · intro h1 h2
    unfold parse_filename_datetime
    rw [h1, h2]
  · intro y m d hh mi ss h hok
    simp only [calGroupsOk, Bool.and_eq_true, decide_eq_true_eq] at hok
    obtain ⟨⟨hd, ht⟩, h300⟩ := hok
    unfold parse_filename_datetime
    rw [h]
    simp [mkDatetime, hd, ht, h300]
  · intro y m d hh mi ss h hok
    unfold parse_filename_datetime
    rw [h]
    by_cases hv : (dateValid y m d && timeValid hh mi ss) = true
    · have h300 : ¬ dtSeconds y m d hh mi ss + 300 ≤ maxSeconds := by
        intro hle
        unfold calGroupsOk at hok
        rw [hv] at hok
        simp [hle] at hok
      refine ⟨"OverflowError", ?_⟩
      simp [mkDatetime, hv, h300]
    · refine ⟨"ValueError", ?_⟩
      simp only [Bool.not_eq_true] at hv
      simp [mkDatetime, hv]
  · intro year doy hh mi ss h1 h2 hok
    simp only [csGroupsOk, Bool.and_eq_true, decide_eq_true_eq] at hok
    obtain ⟨⟨⟨hy, h0⟩, hmax⟩, h120⟩ := hok
    unfold parse_filename_datetime
    rw [h1, h2]
    dsimp only
    unfold csTotal at h0 hmax h120 ⊢
    rw [if_neg hy, if_pos ⟨h0, hmax⟩, if_pos h120]
  · intro year doy hh mi ss h1 h2 hok
    unfold parse_filename_datetime
    rw [h1, h2]
    dsimp only
    by_cases hy : year = 0
    · exact ⟨"ValueError", by rw [if_pos hy]⟩
    · rw [if_neg hy]
      by_cases hr : 0 ≤ csTotal year doy hh mi ss ∧
          csTotal year doy hh mi ss ≤ (maxSeconds : Int)
      · by_cases h120 : (csTotal year doy hh mi ss).toNat + 120 ≤ maxSeconds
        · exfalso
          unfold csGroupsOk at hok
          simp [hy, hr.1, hr.2, h120] at hok
        · refine ⟨"OverflowError", ?_⟩
          obtain ⟨h0, hmax⟩ := hr
          unfold csTotal at h0 hmax h120
          rw [if_pos ⟨h0, hmax⟩, if_neg h120]
      · refine ⟨"OverflowError", ?_⟩
        unfold csTotal at hr
        rw [if_neg hr]

/-- C1 witness: the amended theorem applied concretely to each of its five
cases — a filename neither pattern matches, a CALIPSO match with valid
groups, a CALIPSO match with month 13, a CloudSat match with valid groups,
and a CloudSat match with year 0. -/
theorem C1_witness :
    parse_filename_datetime "random_file.txt" = .ok (none, none) ∧
    parse_filename_datetime "CAL_LID_L1-ValStage1-V3-01.2007-06-12T03-42-18ZN.hdf" =
      .ok (some (dtSeconds 2007 6 12 3 42 18), some (dtSeconds 2007 6 12 3 42 18 + 300)) ∧
    (∃ e, parse_filename_datetime "CAL_LID_2007-13-12T03-42-18ZN.hdf" = .error e) ∧
    parse_filename_datetime "2006224184641_01550_CS_2B-GEOPROF.hdf" =
      .ok (some (csTotal 2006 224 18 46 41).toNat,
           some ((csTotal 2006 224 18 46 41).toNat + 120)) ∧
    (∃ e, parse_filename_datetime "0000224184641_01550_CS_2B-GEOPROF.hdf" = .error e) :=
  ⟨(C1_amended_ok "random_file.txt").1 rfl rfl,
   (C1_amended_ok "CAL_LID_L1-ValStage1-V3-01.2007-06-12T03-42-18ZN.hdf").2.1
     2007 6 12 3 42 18 rfl (by decide),
   (C1_amended_ok "CAL_LID_2007-13-12T03-42-18ZN.hdf").2.2.1
     2007 13 12 3 42 18 rfl (by decide),
   (C1_amended_ok "2006224184641_01550_CS_2B-GEOPROF.hdf").2.2.2.1
     2006 224 18 46 41 rfl rfl (by decide),
   (C1_amended_ok "0000224184641_01550_CS_2B-GEOPROF.hdf").2.2.2.2
     0 224 18 46 41 rfl rfl (by decide)⟩

/-! ### Claim C3 -/

/-- C3: parsing the CALIPSO example filename yields start
2007-06-12 03:42:18 and end 2007-06-12 03:47:18, exactly 5 minutes later. -/
theorem C3_holds :
    parse_filename_datetime "CAL_LID_L1-ValStage1-V3-01.2007-06-12T03-42-18ZN.hdf" =
      .ok (some (dtSeconds 2007 6 12 3 42 18), some (dtSeconds 2007 6 12 3 47 18)) ∧
    dtSeconds 2007 6 12 3 47 18 = dtSeconds 2007 6 12 3 42 18 + 300 := ⟨rfl, rfl⟩

/-! ### Claim C4 -/

/-- C4: parsing the CloudSat example filename yields a start equal to
2006-01-01 00:00:00 advanced by 223 days plus 18:46:41, and an end exactly
2 minutes after the start. -/
theorem C4_holds :
    parse_filename_datetime "2006224184641_01550_CS_2B-GEOPROF.hdf" =
      .ok (some (dtSeconds 2006 1 1 0 0 0 + 223 * 86400 + (18 * 3600 + 46 * 60 + 41)),
           some (dtSeconds 2006 1 1 0 0 0 + 223 * 86400 + (18 * 3600 + 46 * 60 + 41) + 120)) :=
  rfl

/-! ### Claim C9 -/

/-- C9: any pair `parse_filename_datetime` returns has both components
absent or both present, and when present the end is the start plus 300 or
plus 120 seconds, hence strictly greater. -/
theorem C9_holds (fname : String) (a b : Option Nat)
    (h : parse_filename_datetime fname = .ok (a, b)) :
    (a = none ∧ b = none) ∨
      ∃ t1 t2, a = some t1 ∧ b = some t2 ∧ (t2 = t1 + 300 ∨ t2 = t1 + 120) ∧ t1 < t2 := by
  unfold parse_filename_datetime at h
  split at h
  · split at h
    · exact Except.noConfusion h
    · split at h
      · simp only [Except.ok.injEq, Prod.mk.injEq] at h
        right
        exact ⟨_, _, h.1.symm, h.2.symm, Or.inl rfl, by omega⟩
      · exact Except.noConfusion h
  · split at h
    · split at h
      · exact Except.noConfusion h
      · dsimp only at h
        split at h
        · split at h
          · simp only [Except.ok.injEq, Prod.mk.injEq] at h
            right
            exact ⟨_, _, h.1.symm, h.2.symm, Or.inr rfl, by omega⟩
          · exact Except.noConfusion h
        · exact Except.noConfusion h
    · simp only [Except.ok.injEq, Prod.mk.injEq] at h
      exact Or.inl ⟨h.1.symm, h.2.symm⟩

/-- C9 witness: the theorem applied to the CALIPSO example filename. -/
theorem C9_witness :
    ((some (dtSeconds 2007 6 12 3 42 18) : Option Nat) = none ∧
        (some (dtSeconds 2007 6 12 3 47 18) : Option Nat) = none) ∨
      ∃ t1 t2, (some (dtSeconds 2007 6 12 3 42 18) : Option Nat) = some t1 ∧
        (some (dtSeconds 2007 6 12 3 47 18) : Option Nat) = some t2 ∧
        (t2 = t1 + 300 ∨ t2 = t1 + 120) ∧ t1 < t2 :=
  C9_holds "CAL_LID_L1-ValStage1-V3-01.2007-06-12T03-42-18ZN.hdf" _ _ rfl

/-! ### Claim C2 -/

/-- C2 counterexample: in `v2.py` a state with a loaded file and equal
start/end times (03:42:18) still launches the ccplot subprocess — the v2
variant has no start-before-end check at all. -/
theorem C2_counterexample :
    v2StateEq.start_time ≥ v2StateEq.end_time ∧
    ((v2_plot_data v2StateEq (.completed 0 "" "")).1).launched = true :=
  ⟨Nat.le_refl _, rfl⟩

/-- C2 (amended): in `beta_v1.2.py` and `ccplot_gui.py` a selection with
start index ≥ end index is rejected with a warning before the subprocess,
leaving the state unchanged; the `v2.py` variant performs no such check and
reaches the subprocess for every state with a loaded file. -/
theorem C2_amended_ok :
    (∀ (st : BetaState) (run : RunResult), st.start_slider ≥ st.end_slider →
      ∃ m, beta_plot_data st run = (.warned m, st)) ∧
    (∀ (st : GuiState) (run : RunResult), st.slider_start ≥ st.slider_end →
      ∃ m, gui_plot_data st run = (.warned m, st)) ∧
    (∀ (st : V2State) (run : RunResult) (f : String), st.data_file = some f →
      ((v2_plot_data st run).1).launched = true) := by
  refine ⟨?_, ?_, ?_⟩
  · intro st run h
    by_cases hg : (st.data_file.isNone || st.times.isEmpty) = true
    · exact ⟨"Please load a file first.", by simp [beta_plot_data, hg]⟩
    · exact ⟨"End time must be after start time.", by simp [beta_plot_data, hg, h]⟩
  · intro st run h
    by_cases hg : (st.data_file.isNone || st.times.isEmpty) = true
    · exact ⟨"Load an HDF file first.", by simp [gui_plot_data, hg]⟩
    · exact ⟨"End profile must be greater than start profile.",
        by simp [gui_plot_data, hg, h]⟩
  · intro st run f hf
    unfold v2_plot_data
    rw [hf]
    cases run with
    | raised m => rfl
    | completed code out err =>
      by_cases hc : code ≠ 0 <;> simp [hc, PlotOutcome.launched]

/-- C2 witness: the amended theorem applied to a beta state with both
sliders at index 1. -/
theorem C2_witness :
    ∃ m, beta_plot_data betaStateEq (.completed 0 "" "") = (.warned m, betaStateEq) :=
  C2_amended_ok.1 betaStateEq (.completed 0 "" "") (Nat.le_refl _)

/-! ### Claim C10 -/

/-- C10: with no file loaded (absent path, or empty time list where one is
maintained) every variant's plot action only shows a warning and leaves the
state unchanged — in particular no subprocess invocation occurs. -/
theorem C10_holds :
    (∀ (st : V2State) (run : RunResult), st.data_file = none →
      v2_plot_data st run = (.warned "No file loaded. Open a file first.", st)) ∧
    (∀ (st : BetaState) (run : RunResult), st.data_file = none ∨ st.times = [] →
      beta_plot_data st run = (.warned "Please load a file first.", st)) ∧
    (∀ (st : GuiState) (run : RunResult), st.data_file = none ∨ st.times = [] →
      gui_plot_data st run = (.warned "Load an HDF file first.", st)) := by
  refine ⟨?_, ?_, ?_⟩
  · intro st run h
    unfold v2_plot_data
    rw [h]
  · intro st run h
    have hg : (st.data_file.isNone || st.times.isEmpty) = true := by
      rcases h with h | h <;> simp [h]
    simp [beta_plot_data, hg]
  · intro st run h
    have hg : (st.data_file.isNone || st.times.isEmpty) = true := by
      rcases h with h | h <;> simp [h]
    simp [gui_plot_data, hg]

/-- C10 witness: the theorem applied to the empty fixture states. -/
theorem C10_witness :
    v2_plot_data v2StateNoFile (.completed 0 "" "") =
      (.warned "No file loaded. Open a file first.", v2StateNoFile) ∧
    beta_plot_data betaStateEmpty (.completed 0 "" "") =
      (.warned "Please load a file first.", betaStateEmpty) ∧
    gui_plot_data guiStateEmpty (.completed 0 "" "") =
      (.warned "Load an HDF file first.", guiStateEmpty) :=
  ⟨C10_holds.1 v2StateNoFile _ rfl,
   C10_holds.2.1 betaStateEmpty _ (Or.inl rfl),
   C10_holds.2.2 guiStateEmpty _ (Or.inl rfl)⟩

/-! ### Claim C7 -/

/-- C7 counterexample: `v2.py` builds its `-x` argument with Qt format
`H:mm:ss`, so for the loaded state with times 03:42:18 and 03:47:18 the
launched command's time range is `3:42:18..3:47:18`, which is not of the
claimed `HH:MM:SS..HH:MM:SS` shape. -/
theorem C7_counterexample :
    cmdOf ((v2_plot_data v2StateLt (.completed 0 "" "")).1) =
      some (v2_cmd v2StateLt "granule.hdf") ∧
    spec_cmdFormat (v2_cmd v2StateLt "granule.hdf") = false :=
  ⟨rfl, by decide⟩

/-- C7 (amended): every command a plot action hands to the subprocess has
exactly the claimed argument layout; in `beta_v1.2.py` and `ccplot_gui.py`
the `-x` range is `HH:MM:SS..HH:MM:SS` and the `-y` range `low..high`, while
in `v2.py` the layout is the same but the `-x` hour fields are unpadded
(Qt `H:mm:ss`). -/
theorem C7_amended_ok :
    (∀ (st : BetaState) (run : RunResult) (c : List String),
      cmdOf ((beta_plot_data st run).1) = some c → spec_cmdFormat c = true) ∧
    (∀ (st : GuiState) (run : RunResult) (c : List String),
      cmdOf ((gui_plot_data st run).1) = some c → spec_cmdFormat c = true) ∧
    (∀ (st : V2State) (run : RunResult) (c : List String),
      cmdOf ((v2_plot_data st run).1) = some c →
      ∃ f, st.data_file = some f ∧ c = v2_cmd st f) := by
  refine ⟨?_, ?_, ?_⟩
  · intro st run c h
    unfold beta_plot_data at h
    split at h
    · exact Option.noConfusion h
    · split at h
      · exact Option.noConfusion h
      · split at h
        · split at h
          · simp only [cmdOf, Option.some.injEq] at h
            subst h
            exact spec_cmdFormat_explicit _ _ _ _ _ _ _
              (spec_timeRangeFormat_timeRangeArg _ _) (spec_altRangeFormat_altRangeArg _ _)
          · split at h <;>
            · simp only [cmdOf, Option.some.injEq] at h
              subst h
              exact spec_cmdFormat_explicit _ _ _ _ _ _ _
                (spec_timeRangeFormat_timeRangeArg _ _) (spec_altRangeFormat_altRangeArg _ _)
        · exact Option.noConfusion h
  · intro st run c h
    unfold gui_plot_data at h
    split at h
    · exact Option.noConfusion h
    · split at h
      · exact Option.noConfusion h
      · split at h
        · split at h
          · simp only [cmdOf, Option.some.injEq] at h
            subst h
            exact spec_cmdFormat_explicit _ _ _ _ _ _ _
              (spec_timeRangeFormat_timeRangeArg _ _) (spec_altRangeFormat_altRangeArg _ _)
          · split at h <;>
            · simp only [cmdOf, Option.some.injEq] at h
              subst h
              exact spec_cmdFormat_explicit _ _ _ _ _ _ _
                (spec_timeRangeFormat_timeRangeArg _ _) (spec_altRangeFormat_altRangeArg _ _)
        · exact Option.noConfusion h
  · intro st run c h
    unfold v2_plot_data at h
    split at h
    · exact Option.noConfusion h
    · next f hf =>
      refine ⟨f, hf, ?_⟩
      split at h
      · simp only [cmdOf, Option.some.injEq] at h
        exact h.symm
      · split at h <;>
        · simp only [cmdOf, Option.some.injEq] at h
          exact h.symm

/-- C7 witness: the amended theorem applied to the beta fixture state. -/
theorem C7_witness :
    ∃ c, cmdOf ((beta_plot_data betaStateA (.completed 0 "" "")).1) = some c ∧
      spec_cmdFormat c = true :=
  ⟨_, rfl, C7_amended_ok.1 betaStateA (.completed 0 "" "") _ rfl⟩

/-! ### Claim C5 -/

set_option maxRecDepth 40000 in
/-- C5 counterexample: `beta_v1.2.py` runs the subprocess without capturing
output; on exit status 1 with stderr text `boom` the text shown to the user
is the `CalledProcessError` message, which does not contain `boom`. -/
theorem C5_counterexample :
    ((beta_plot_data betaStateA (.completed 1 "" "boom")).1).launched = true ∧
    strContainsSub ((beta_plot_data betaStateA (.completed 1 "" "boom")).1).shownText
      "boom" = false :=
  ⟨rfl, by decide⟩

/-- C5 (amended): only `v2.py` captures the subprocess output and, on a
non-zero exit status, shows the captured stderr text (appended to a fixed
prefix, hence surfaced verbatim); `beta_v1.2.py` and `ccplot_gui.py` do not
capture output and instead show the `CalledProcessError` message naming the
command and the exit status. -/
theorem C5_amended_ok :
    (∀ (st : V2State) (f : String) (code : Nat) (out err : String),
      st.data_file = some f → code ≠ 0 →
      (v2_plot_data st (.completed code out err)).1 =
        .ran (v2_cmd st f) ("ccplot error:\n" ++ err)) ∧
    (∀ (p s : String), strContainsSub (p ++ s) s = true) ∧
    (∀ (st : BetaState) (code : Nat) (out err : String) (c : List String) (shown : String),
      code ≠ 0 → (beta_plot_data st (.completed code out err)).1 = .ran c shown →
      shown = "Plot failed:\n" ++ calledProcessErrorMsg c code) ∧
    (∀ (st : GuiState) (code : Nat) (out err : String) (c : List String) (shown : String),
      code ≠ 0 → (gui_plot_data st (.completed code out err)).1 = .ran c shown →
      shown = "Error running ccplot:\n" ++ calledProcessErrorMsg c code) := by
  refine ⟨?_, strContainsSub_append, ?_, ?_⟩
  · intro st f code out err hf hc
    unfold v2_plot_data
    rw [hf]
    simp [hc]
  · intro st code out err c shown hc h
    unfold beta_plot_data at h
    split at h
    · exact PlotOutcome.noConfusion h
    · split at h
      · exact PlotOutcome.noConfusion h
      · split at h
        · dsimp only at h
          rw [if_pos hc] at h
          obtain ⟨hcmd, hshown⟩ := PlotOutcome.ran.inj h
          rw [← hshown, hcmd]
        · exact PlotOutcome.noConfusion h
  · intro st code out err c shown hc h
    unfold gui_plot_data at h
    split at h
    · exact PlotOutcome.noConfusion h
    · split at h
      · exact PlotOutcome.noConfusion h
      · split at h
        · dsimp only at h
          rw [if_pos hc] at h
          obtain ⟨hcmd, hshown⟩ := PlotOutcome.ran.inj h
          rw [← hshown, hcmd]
        · exact PlotOutcome.noConfusion h

/-- C5 witness: the amended theorem applied to a `v2.py` state with a
loaded file, exit status 2 and stderr `boom`. -/
theorem C5_witness :
    (v2_plot_data v2StateLt (.completed 2 "" "boom")).1 =
      .ran (v2_cmd v2StateLt "granule.hdf") ("ccplot error:\n" ++ "boom") ∧
    strContainsSub ("ccplot error:\n" ++ "boom") "boom" = true :=
  ⟨C5_amended_ok.1 v2StateLt "granule.hdf" 2 "" "boom" rfl (by decide),
   C5_amended_ok.2.1 "ccplot error:\n" "boom"⟩

/-! ### Claim C6 -/

/-- C6 counterexample: in `beta_v1.2.py` a `shutil.copy` failure during the
save action escapes uncaught (there is no `try` around the copy), so not
every user-action failure is caught and surfaced. -/
theorem C6_counterexample :
    (beta_save_plot (some "/home/user/plot.png") (.raised "Permission denied")).isUncaught
      = true := rfl

/-- C6 (amended): read failures at open are caught and surfaced as a dialog
in `beta_v1.2.py` and `ccplot_gui.py`; plot failures are caught in `v2.py`
(always) and in `beta_v1.2.py` and `ccplot_gui.py` for in-range profile
indices (`ccplot_gui.py` only for a completed subprocess, since it catches
only `CalledProcessError`); save failures are caught in `v2.py`; but a copy
failure at save escapes uncaught in `beta_v1.2.py` and (for a non-empty
plot path) in `ccplot_gui.py`. -/
theorem C6_amended_ok :
    (∀ (st : BetaState) (f m : String),
      (beta_open_file st (some f) (.raised m)).1 =
        .readError ("Error opening file:\n" ++ m)) ∧
    (∀ (st : GuiState) (f m : String),
      (gui_open_file st (some f) (.raised m)).1 =
        .readError ("Error reading HDF file:\n" ++ m)) ∧
    (∀ (st : V2State) (run : RunResult), ((v2_plot_data st run).1).isUncaught = false) ∧
    (∀ (st : BetaState) (run : RunResult),
      st.start_slider < st.times.length → st.end_slider < st.times.length →
      ((beta_plot_data st run).1).isUncaught = false) ∧
    (∀ (st : GuiState) (code : Nat) (out err : String),
      st.slider_start < st.times.length → st.slider_end < st.times.length →
      ((gui_plot_data st (.completed code out err)).1).isUncaught = false) ∧
    (∀ (st : V2State) (fname : Option String) (cp : CopyResult),
      (v2_save_plot st fname cp).isUncaught = false) ∧
    (∀ (f m : String), beta_save_plot (some f) (.raised m) = .uncaughtCopyError m) ∧
    (∀ (st : GuiState) (f m : String), st.current_plot_path ≠ "" →
      gui_save_plot st (some f) (.raised m) = .uncaughtCopyError m) := by
  refine ⟨?_, ?_, ?_, ?_, ?_, ?_, ?_, ?_⟩
  · intro st f m
    rfl
  · intro st f m
    rfl
  · intro st run
    unfold v2_plot_data
    split
    · rfl
    · cases run with
      | raised m => rfl
      | completed code out err =>
        by_cases hc : code ≠ 0 <;> simp [hc, PlotOutcome.isUncaught]
  · intro st run h1 h2
    unfold beta_plot_data
    by_cases hg : (st.data_file.isNone || st.times.isEmpty) = true
    · simp [hg, PlotOutcome.isUncaught]
    · by_cases hse : st.start_slider ≥ st.end_slider
      · simp [hg, hse, PlotOutcome.isUncaught]
      · rw [List.get?_eq_get h1, List.get?_eq_get h2]
        simp only [Bool.not_eq_true] at hg
        rw [hg]
        rw [if_neg hse]
        cases run with
        | raised m => rfl
        | completed code out err =>
          by_cases hc : code ≠ 0 <;> simp [hc, PlotOutcome.isUncaught]
  · intro st code out err h1 h2
    unfold gui_plot_data
    by_cases hg : (st.data_file.isNone || st.times.isEmpty) = true
    · simp [hg, PlotOutcome.isUncaught]
    · by_cases hse : st.slider_start ≥ st.slider_end
      · simp [hg, hse, PlotOutcome.isUncaught]
      · rw [List.get?_eq_get h1, List.get?_eq_get h2]
        simp only [Bool.not_eq_true] at hg
        rw [hg]
        rw [if_neg hse]
        by_cases hc : code ≠ 0 <;> simp [hc, PlotOutcome.isUncaught]
  · intro st fname cp
    unfold v2_save_plot
    split
    · rfl
    · cases fname with
      | none => rfl
      | some out => cases cp <;> rfl
  · intro f m
    rfl
  · intro st f m h
    unfold gui_save_plot
    rw [if_neg h]

/-- C6 witness: the amended theorem applied to the beta fixture state with
in-range indices and to the gui fixture state at save. -/
theorem C6_witness :
    ((beta_plot_data betaStateA (.completed 0 "" "")).1).isUncaught = false ∧
    gui_save_plot guiStateA (some "/home/user/plot.png") (.raised "Permission denied") =
      .uncaughtCopyError "Permission denied" :=
  ⟨C6_amended_ok.2.2.2.1 betaStateA (.completed 0 "" "") (by decide) (by decide),
   C6_amended_ok.2.2.2.2.2.2.2 guiStateA "/home/user/plot.png" "Permission denied"
     (by decide)⟩

/-! ### Claim C8 -/

/-- C8: whenever the user chooses a filename at open, the stored timestamp
list after `open_file` returns is exactly the newly read one (on a
successful read) or empty (on a read failure), never the previous file's,
and the stored path is the newly chosen file. -/
theorem C8_holds (bst : BetaState) (gst : GuiState) (f : String) (r : ReadResult) :
    ((beta_open_file bst (some f) r).2.times =
      match r with | .ok ts => ts | .raised _ => []) ∧
    ((gui_open_file gst (some f) r).2.times =
      match r with | .ok ts => ts | .raised _ => []) ∧
    (beta_open_file bst (some f) r).2.data_file = some f ∧
    (gui_open_file gst (some f) r).2.data_file = some f := by
  cases r with
  | raised m => exact ⟨rfl, rfl, rfl, rfl⟩
  | ok ts =>
    cases ts with
    | nil => exact ⟨rfl, rfl, rfl, rfl⟩
    | cons t rest => exact ⟨rfl, rfl, rfl, rfl⟩

end CcplotGui
